import Mathlib

/-!
# Verification of the DFIR Workbench orchestration backend

Shallow embedding of `backend/main.py`: a FastAPI service that serves
analysis artifacts from a results directory and orchestrates three external
forensic binaries (Hayabusa, Chainsaw, Takajo).

Modelling conventions:
* An absolute filesystem location is a canonical list of path segments
  (`List String`), obtained from a path string by splitting on `/` and
  lexically resolving `.` and `..` (the filesystem is modelled without
  symbolic links, so `pathlib.Path.resolve` and kernel path resolution are
  lexical).
* Python exceptions are values of an explicit `PyExc` type; each handler body
  is a pure function returning either a response or an exception, and the
  FastAPI boundary (or an in-handler `except` block, where the source has one)
  translates exceptions to HTTP responses.
* The external binaries are an oracle `exec : argv → cwd → ExecResult × FS`
  packaged in the environment: invoking a binary yields its exit code, its
  captured stdout/stderr, and the filesystem as the binary leaves it.
* Side effects that the claims observe (file/tree deletion, process spawning)
  are recorded in an ordered trace of `Event`s returned next to the response.
-/

/-! ## List and string utilities -/

/-- Is `p` a (possibly improper) prefix of `l`? -/
def listPrefix [DecidableEq α] : List α → List α → Bool
  | [], _ => true
  | _ :: _, [] => false
  | a :: p, b :: l => if a = b then listPrefix p l else false

/-- Does `pat` occur as a contiguous sublist of `l`?  Models Python's
substring test `pat in s` (for non-empty `pat`). -/
def listInfix [DecidableEq α] (pat : List α) : List α → Bool
  | [] => pat.isEmpty
  | b :: l => listPrefix pat (b :: l) || listInfix pat l

/-- `strStartsWith s p`: does `s` start with `p`?  Models `str.startswith`. -/
def strStartsWith (s p : String) : Bool := listPrefix p.data s.data

/-- `strEndsWith s p`: does `s` end with `p`?  Models `str.endswith`. -/
def strEndsWith (s p : String) : Bool := listPrefix p.data.reverse s.data.reverse

/-- `strContains s pat`: does `pat` occur in `s`?  Models Python's `pat in s`. -/
def strContains (s pat : String) : Bool := listInfix pat.data s.data

/-- Replace every (leftmost, non-overlapping) occurrence of `pat` in the list
by `rep`.  Models Python's `str.replace` for a non-empty pattern.  The `fuel`
argument makes the recursion structural; with `fuel` at least the length of
the list and a non-empty pattern the fallback row is never reached (a matched
occurrence consumes at least one element while spending one unit of fuel). -/
def replaceFuel [DecidableEq α] (pat rep : List α) : Nat → List α → List α
  | _, [] => []
  | 0, l => l
  | fuel + 1, c :: rest =>
    if listPrefix pat (c :: rest) then
      rep ++ replaceFuel pat rep fuel ((c :: rest).drop pat.length)
    else
      c :: replaceFuel pat rep fuel rest

/-- Python's `s.replace(pat, rep)` (all occurrences, left to right,
non-overlapping).  The empty-pattern case never arises in this program; it is
mapped to the identity. -/
def strReplace (s pat rep : String) : String :=
  match pat.data with
  | [] => s
  | _ :: _ => ⟨replaceFuel pat.data rep.data s.data.length s.data⟩

/-- ASCII whitespace as recognised by Python's `str.strip`. -/
def isPySpace (c : Char) : Bool :=
  c = ' ' ∨ c = '\t' ∨ c = '\n' ∨ c = '\x0d' ∨ c = '\x0b' ∨ c = '\x0c'

/-- Truthiness of `line.strip()` is "some non-whitespace character exists";
`lineBlank` is its negation. -/
def lineBlank (s : String) : Bool := s.data.all isPySpace

/-- Split a string on `/` (every occurrence, keeping empty segments), like
`"a//b".split("/") = ["a", "", "b"]`. -/
def splitSegsAux (cur : List Char) : List Char → List (List Char)
  | [] => [cur.reverse]
  | c :: rest =>
    if c = '/' then cur.reverse :: splitSegsAux [] rest
    else splitSegsAux (c :: cur) rest

def splitSegs (s : String) : List String :=
  (splitSegsAux [] s.data).map fun l => ⟨l⟩

/-- Lexical normalisation of path segments on top of an already-canonical
absolute base: empty segments and `.` are dropped, `..` removes the last
segment (staying at the root when there is none).  This is what
`pathlib.Path.resolve` / `os.path.normpath` / kernel path walking do on a
filesystem without symbolic links. -/
def normLoop (acc : List String) : List String → List String
  | [] => acc
  | s :: rest =>
    if s = "" ∨ s = "." then normLoop acc rest
    else if s = ".." then normLoop acc.dropLast rest
    else normLoop (acc ++ [s]) rest

/-- Canonical segments of an absolute path string. -/
def resolveStr (s : String) : List String := normLoop [] (splitSegs s)

/-- `pathlib`: `base.joinpath(rel).resolve()` where `base` is already
canonical.  An absolute `rel` replaces `base` entirely (`PurePath.joinpath`
semantics); otherwise the segments of `rel` are resolved on top of `base`. -/
def joinResolve (base : List String) (rel : String) : List String :=
  if strStartsWith rel "/" then normLoop [] (splitSegs rel)
  else normLoop base (splitSegs rel)

/-- `base in p.parents` for canonical absolute paths: `base` is a *proper*
prefix of `p`. -/
def inParents (base p : List String) : Bool :=
  listPrefix base p && !(base == p)

/-- `os.path.join(a, b)` (POSIX, two arguments). -/
def osPathJoin (a b : String) : String :=
  if strStartsWith b "/" then b
  else if a = "" ∨ strEndsWith a "/" then a ++ b
  else a ++ "/" ++ b

/-- `os.path.normpath` on an absolute path string (lexical; a doubled leading
slash is collapsed, which agrees with `abspath` for the paths this program
builds). -/
def normpathAbs (p : String) : String :=
  "/" ++ String.intercalate "/" (normLoop [] (splitSegs p))

/-- `os.path.abspath(p)` = `normpath(join(cwd, p))`. -/
def osPathAbspath (cwd p : String) : String :=
  normpathAbs (if strStartsWith p "/" then p else osPathJoin cwd p)

/-- Numeric value of a hexadecimal digit. -/
def hexDigitVal (c : Char) : Option Nat :=
  if '0' ≤ c ∧ c ≤ '9' then some (c.toNat - '0'.toNat)
  else if 'a' ≤ c ∧ c ≤ 'f' then some (c.toNat - 'a'.toNat + 10)
  else if 'A' ≤ c ∧ c ≤ 'F' then some (c.toNat - 'A'.toNat + 10)
  else none

/-- Percent-decoding of `urllib.parse.unquote`, modelled byte-wise (faithful
for ASCII data, which is all this service's path segments use): `%XY` with two
hex digits becomes the character with code `16*X + Y`; anything else is kept
as-is. -/
def unquoteChars : List Char → List Char
  | [] => []
  | '%' :: a :: b :: rest =>
    match hexDigitVal a, hexDigitVal b with
    | some ha, some hb => Char.ofNat (16 * ha + hb) :: unquoteChars rest
    | _, _ => '%' :: unquoteChars (a :: b :: rest)
  | c :: rest => c :: unquoteChars rest

def unquote (s : String) : String := ⟨unquoteChars s.data⟩

/-- Is an `Except` value a success? -/
def exceptOk : Except ε α → Bool
  | .ok _ => true
  | .error _ => false

/-! ## Data model -/

/-- JSON values (the element type produced by `json.loads`). -/
inductive Json where
  | null
  | bool (b : Bool)
  | num (n : Int)
  | str (s : String)
  | arr (elems : List Json)
  | obj (entries : List (String × Json))

/-- The `detail` payload of an `HTTPException`: either a plain string or the
`{"message": ..., "stdout": ..., "stderr": ...}` dictionary shape used by the
analyze endpoints (absent keys are `none`). -/
inductive Detail where
  | text (s : String)
  | fields (message : String) (stdout : Option String) (stderr : Option String)
deriving DecidableEq

/-- The Python exceptions this program can raise. -/
inductive PyExc where
  | httpException (status : Nat) (detail : Detail)
  | attributeError (msg : String)
  | osError (msg : String)
  | calledProcessError (cmd : List String) (returncode : Nat) (stdout : String) (stderr : String)
deriving DecidableEq

/-- `str(e)` for the exceptions above, as used in `f"Internal server error: {e}"`
(`starlette.HTTPException.__str__` is `f"{status_code}: {detail}"`; the
dictionary case never reaches a format string in this program). -/
def PyExc.toStr : PyExc → String
  | .httpException status d =>
    toString status ++ ": " ++ (match d with | .text s => s | .fields m _ _ => m)
  | .attributeError msg => msg
  | .osError msg => msg
  | .calledProcessError _ rc _ _ =>
    "Command returned non-zero exit status " ++ toString rc ++ "."

/-- The body of a successful `AnalysisResponse` (the Pydantic model). -/
structure AnalysisResponse where
  message : String
  output_location : String
  tool : String
  stdout : Option String
  stderr : Option String
  command_run : String
  generated_files : Option (List String)
deriving DecidableEq

/-- What an endpoint hands back over HTTP. -/
inductive Resp where
  | ok (r : AnalysisResponse)
  | fileResponse (path : List String) (mediaType : String) (filename : String)
  | jsonArray (values : List Json)
  | err (status : Nat) (detail : Detail)

/-- Observable side effects, in execution order. -/
inductive Event where
  | removeFile (p : String)
  | removeTree (p : String)
  | spawn (argv : List String) (cwd : String)
deriving DecidableEq

/-- Exit status and captured streams of one external run. -/
structure ExecResult where
  returncode : Nat
  stdout : String
  stderr : String

/-- Abstract filesystem state, keyed by canonical segment lists.
`removeFails` marks locations whose deletion raises an `OSError` for reasons
other than type mismatch (permissions, races); `listTree` gives the
forward-slash relative paths of the regular files under a directory (the
result of the `rglob` scan). -/
structure FS where
  isFile : List String → Bool
  isDir : List String → Bool
  removeFails : List String → Bool
  listTree : List String → List String

/-- `os.path.exists` on a path string (no symlinks, lexical resolution). -/
def FS.existsAt (fs : FS) (p : String) : Bool :=
  fs.isFile (resolveStr p) || fs.isDir (resolveStr p)

/-- `os.path.isfile` on a path string. -/
def FS.isFileAt (fs : FS) (p : String) : Bool := fs.isFile (resolveStr p)

/-- Request environment: filesystem, the external-binary oracle (argv and cwd
determine exit status, captured output, and the filesystem left behind), and
the server process working directory (used by `os.path.abspath`). -/
structure Env where
  fs : FS
  exec : List String → String → ExecResult × FS
  cwd : String

/-- `os.remove(p)`: fails on directories, missing files, or `removeFails`. -/
def osRemove (fs : FS) (p : String) : Except PyExc Unit :=
  if fs.isDir (resolveStr p) then .error (.osError ("IsADirectoryError: " ++ p))
  else if !fs.isFile (resolveStr p) then .error (.osError ("FileNotFoundError: " ++ p))
  else if fs.removeFails (resolveStr p) then .error (.osError ("PermissionError: " ++ p))
  else .ok ()

/-- `shutil.rmtree(p)`: fails on anything that is not a directory, or on
`removeFails`. -/
def shutilRmtree (fs : FS) (p : String) : Except PyExc Unit :=
  if !fs.isDir (resolveStr p) then .error (.osError ("NotADirectoryError: " ++ p))
  else if fs.removeFails (resolveStr p) then .error (.osError ("PermissionError: " ++ p))
  else .ok ()

/-! ## Fixed configuration (lines 18–31 of the source) -/

def TOOLS_DIR : String := "/tools"
def DATA_DIR : String := "/data"
def RESULTS_DIR : String := "/data/results"

def HAYABUSA_DIR : String := osPathJoin TOOLS_DIR "hayabusa"
def CHAINSAW_DIR : String := osPathJoin TOOLS_DIR "chainsaw"
def TAKAJO_DIR : String := osPathJoin TOOLS_DIR "takajo"

def HAYABUSA_PATH : String := osPathJoin HAYABUSA_DIR "hayabusa"
def CHAINSAW_PATH : String := osPathJoin CHAINSAW_DIR "chainsaw"
def TAKAJO_PATH : String := osPathJoin TAKAJO_DIR "takajo"

/-- `pathlib.Path(RESULTS_DIR).resolve()` — the canonical results root. -/
def resultsRoot : List String := resolveStr RESULTS_DIR

/-! ## GET /results_file/{analysis_directory}/{file_name} (lines 140–165) -/

/-- Body of `get_result_file` (the contents of its `try` block).  The segments
are `unquote`d, joined under the results root and canonicalised; a resolution
that is not strictly inside the root raises `HTTPException(403)`, a missing
file raises `HTTPException(404)`, otherwise a `FileResponse` is returned. -/
def get_result_file_body (fs : FS) (analysis_directory file_name : String) :
    Except PyExc Resp :=
  let ad := unquote analysis_directory
  let fn := unquote file_name
  let base_path := resultsRoot
  let analysis_path := joinResolve base_path ad
  let file_path := joinResolve analysis_path fn
  if !(inParents base_path analysis_path) || !(inParents base_path file_path) then
    .error (.httpException 403 (.text "Forbidden"))
  else if !(fs.isFile file_path) then
    .error (.httpException 404 (.text "File not found"))
  else
    .ok (.fileResponse file_path "text/plain" fn)

/-- The full handler: the source wraps the body in
`try: ... except Exception as e: raise HTTPException(500, f"Internal server error: {e}")`.
`HTTPException` subclasses `Exception`, so the 403/404 raised inside the `try`
are themselves caught here and re-raised as 500. -/
def get_result_file (fs : FS) (analysis_directory file_name : String) : Resp :=
  match get_result_file_body fs analysis_directory file_name with
  | .ok r => r
  | .error e => .err 500 (.text ("Internal server error: " ++ e.toStr))

/-! ## GET /results_file_json/{file_name} (lines 168–199) -/

/-- Body of `get_result_file_json` (the contents of its `try` block).  After
the traversal check, line 184 evaluates
`not file_path.is_file() or not file_name.endsWith('.jsonl')`: when the file
is missing the left disjunct short-circuits to the 404; when the file exists,
`file_name.endsWith` is evaluated and raises `AttributeError` (Python's `str`
has `endswith`, not `endsWith`), so the JSONL reading code below it is
unreachable. -/
def get_result_file_json_body (fs : FS) (file_name₀ : String) :
    Except PyExc Resp :=
  let file_name := unquote file_name₀
  let base_path := resultsRoot
  let file_path := joinResolve base_path file_name
  if !(inParents base_path file_path) then
    .error (.httpException 403 (.text "Forbidden"))
  else if !(fs.isFile file_path) then
    .error (.httpException 404 (.text "JSONL file not found"))
  else
    .error (.attributeError "'str' object has no attribute 'endsWith'")

/-- The full handler, with the same blanket `except Exception` → 500 wrapper
as `get_result_file`. -/
def get_result_file_json (fs : FS) (file_name : String) : Resp :=
  match get_result_file_json_body fs file_name with
  | .ok r => r
  | .error e => .err 500 (.text ("Internal server error: " ++ e.toStr))

/-- The JSON-Lines reading loop of lines 189–193:
`for line in f: if line.strip(): json_data.append(json.loads(line))`,
parameterised by the decoder `dec` standing for `json.loads` (a raised decode
error aborts the loop and propagates). -/
def readJsonLinesAux (dec : String → Except String α) (acc : List α) :
    List String → Except String (List α)
  | [] => .ok acc
  | line :: rest =>
    if lineBlank line then readJsonLinesAux dec acc rest
    else
      match dec line with
      | .error e => .error e
      | .ok v => readJsonLinesAux dec (acc ++ [v]) rest

def readJsonLines (dec : String → Except String α) (lines : List String) :
    Except String (List α) :=
  readJsonLinesAux dec [] lines

/-! ## POST /analyze/hayabusa (lines 203–245) -/

def hayabusaOut (log_file : String) : String :=
  osPathJoin RESULTS_DIR (log_file ++ "-hayabusa-report.jsonl")

def hayabusaCmd (log_path output_jsonl : String) : List String :=
  [HAYABUSA_PATH, "json-timeline", "-f", log_path, "-o", output_jsonl, "-L", "--no-wizard"]

/-- `analyze_hayabusa`: validate binary and log file, delete a pre-existing
report, run the binary (`check=True`: a nonzero exit raises
`CalledProcessError`, caught and translated to a 500 carrying stdout/stderr),
and assemble the `AnalysisResponse`.  An `OSError` escaping `os.remove` is
uncaught in the handler and surfaces as FastAPI's generic 500. -/
def analyze_hayabusa (env : Env) (log_file : String) : List Event × Resp :=
  let log_path := osPathJoin DATA_DIR log_file
  let output_jsonl := hayabusaOut log_file
  if !(env.fs.existsAt HAYABUSA_PATH) then
    ([], .err 500 (.fields ("Hayabusa binary not found at " ++ HAYABUSA_PATH) none none))
  else if strContains log_file ".." || !(env.fs.isFileAt log_path) then
    ([], .err 404 (.fields ("Log file not found at " ++ log_path ++ ".") none none))
  else
    let cmd := hayabusaCmd log_path output_jsonl
    let command_run := String.intercalate " " cmd
    let cleanup : List Event × Option PyExc :=
      if env.fs.existsAt output_jsonl then
        match osRemove env.fs output_jsonl with
        | .error e => ([], some e)
        | .ok _ => ([.removeFile output_jsonl], none)
      else ([], none)
    match cleanup with
    | (evs, some _) => (evs, .err 500 (.text "Internal Server Error"))
    | (evs, none) =>
      let run := env.exec cmd HAYABUSA_DIR
      let evs' := evs ++ [.spawn cmd HAYABUSA_DIR]
      if run.1.returncode ≠ 0 then
        (evs', .err 500 (.fields "Hayabusa analysis failed." (some run.1.stdout) (some run.1.stderr)))
      else
        (evs', .ok ⟨"Hayabusa analysis complete for " ++ log_file, output_jsonl, "Hayabusa",
                    some run.1.stdout, some run.1.stderr, command_run, none⟩)

/-! ## POST /analyze/hayabusa/search (lines 248–294) -/

def searchOut (log_file keyword : String) : String :=
  osPathJoin RESULTS_DIR (log_file ++ "-search-" ++ keyword ++ ".csv")

def searchCmd (log_path keyword output_csv : String) : List String :=
  [HAYABUSA_PATH, "search", "-f", log_path, "-k", keyword, "-o", output_csv]

/-- `analyze_hayabusa_search`: like `analyze_hayabusa`, with the keyword
embedded verbatim in the output file name and passed as `-k`. -/
def analyze_hayabusa_search (env : Env) (log_file keyword : String) : List Event × Resp :=
  let log_path := osPathJoin DATA_DIR log_file
  let output_csv := searchOut log_file keyword
  if !(env.fs.existsAt HAYABUSA_PATH) then
    ([], .err 500 (.fields ("Hayabusa binary not found at " ++ HAYABUSA_PATH) none none))
  else if strContains log_file ".." || !(env.fs.isFileAt log_path) then
    ([], .err 404 (.fields ("Log file not found at " ++ log_path ++ ".") none none))
  else
    let cmd := searchCmd log_path keyword output_csv
    let command_run := String.intercalate " " cmd
    let cleanup : List Event × Option PyExc :=
      if env.fs.existsAt output_csv then
        match osRemove env.fs output_csv with
        | .error e => ([], some e)
        | .ok _ => ([.removeFile output_csv], none)
      else ([], none)
    match cleanup with
    | (evs, some _) => (evs, .err 500 (.text "Internal Server Error"))
    | (evs, none) =>
      let run := env.exec cmd HAYABUSA_DIR
      let evs' := evs ++ [.spawn cmd HAYABUSA_DIR]
      if run.1.returncode ≠ 0 then
        (evs', .err 500 (.fields "Hayabusa search failed." (some run.1.stdout) (some run.1.stderr)))
      else
        (evs', .ok ⟨"Hayabusa search for '" ++ keyword ++ "' complete on " ++ log_file,
                    output_csv, "Hayabusa Search",
                    some run.1.stdout, some run.1.stderr, command_run, none⟩)

/-! ## POST /analyze/chainsaw (lines 296–324) -/

def chainsawOut (log_file : String) : String :=
  osPathJoin RESULTS_DIR (log_file ++ "-chainsaw-report.json")

def chainsawCmd (log_path output_json : String) : List String :=
  [CHAINSAW_PATH, "hunt", "-f", log_path, "--json", "-o", output_json, "--no-banner"]

/-- `analyze_chainsaw`: the source is an explicit stub — after the same
validation it builds the command vector but performs no cleanup and spawns
nothing, returning a canned response. -/
def analyze_chainsaw (env : Env) (log_file : String) : List Event × Resp :=
  let log_path := osPathJoin DATA_DIR log_file
  let output_json := chainsawOut log_file
  if !(env.fs.existsAt CHAINSAW_PATH) then
    ([], .err 500 (.fields ("Chainsaw binary not found at " ++ CHAINSAW_PATH) none none))
  else if strContains log_file ".." || !(env.fs.isFileAt log_path) then
    ([], .err 404 (.fields ("Log file not found at " ++ log_path ++ ".") none none))
  else
    let cmd := chainsawCmd log_path output_json
    let command_run := String.intercalate " " cmd
    ([], .ok ⟨"Chainsaw analysis STUB executed for " ++ log_file, output_json, "Chainsaw",
              some "This is a stub. Chainsaw was not actually executed.", none,
              command_run, none⟩)

/-! ## POST /analyze/takajo (lines 327–385) -/

def takajoCmd (report_path output_directory : String) : List String :=
  [TAKAJO_PATH, "automagic", "-t", report_path, "-o", output_directory]

/-- `analyze_takajo`: the report path is absolutised, the output directory is
derived by unconditional substring replacement, a pre-existing artifact at the
output location is `shutil.rmtree`d (a failure there is caught and re-raised
as `HTTPException(500, "Failed to remove old analysis directory: ...")`), then
the binary runs and the output tree is scanned for `generated_files`. -/
def analyze_takajo (env : Env) (hayabusa_report_file : String) : List Event × Resp :=
  let report_path := osPathAbspath env.cwd hayabusa_report_file
  let output_directory := strReplace report_path "-hayabusa-report.jsonl" "-takajo-analysis"
  if !(env.fs.existsAt TAKAJO_PATH) then
    ([], .err 500 (.fields ("Takajo binary not found at " ++ TAKAJO_PATH) none none))
  else if strContains report_path ".." || !(env.fs.isFileAt report_path) then
    ([], .err 404 (.fields "Hayabusa report file (.jsonl) not found." none none))
  else
    let cleanup : List Event × Option PyExc :=
      if env.fs.existsAt output_directory then
        match shutilRmtree env.fs output_directory with
        | .error e => ([], some e)
        | .ok _ => ([.removeTree output_directory], none)
      else ([], none)
    match cleanup with
    | (evs, some e) =>
      (evs, .err 500 (.text ("Failed to remove old analysis directory: " ++ e.toStr)))
    | (evs, none) =>
      let cmd := takajoCmd report_path output_directory
      let command_run := String.intercalate " " cmd
      let run := env.exec cmd TAKAJO_DIR
      let evs' := evs ++ [.spawn cmd TAKAJO_DIR]
      if run.1.returncode ≠ 0 then
        (evs', .err 500 (.fields "Takajo analysis failed." (some run.1.stdout) (some run.1.stderr)))
      else
        let generated_files :=
          if run.2.isDir (resolveStr output_directory) then
            run.2.listTree (resolveStr output_directory)
          else []
        (evs', .ok ⟨"Takajo 'automagic' analysis complete for " ++ hayabusa_report_file,
                    output_directory, "Takajo",
                    some run.1.stdout, some run.1.stderr, command_run,
                    some generated_files⟩)

/-! ## Helper lemmas -/

theorem str_data_append (a b : String) : (a ++ b).data = a.data ++ b.data := rfl

theorem str_append_assoc (a b c : String) : a ++ b ++ c = a ++ (b ++ c) := by
  cases a with
  | mk da =>
    cases b with
    | mk db =>
      cases c with
      | mk dc =>
        show String.mk (da ++ db ++ dc) = String.mk (da ++ (db ++ dc))
        rw [List.append_assoc]

/-- A prefix of a list is an occurrence. -/
theorem listPrefix_listInfix [DecidableEq α] (pat l : List α)
    (h : listPrefix pat l = true) : listInfix pat l = true := by
  cases l with
  | nil =>
    cases pat with
    | nil => simp [listInfix, List.isEmpty]
    | cons a p => simp [listPrefix] at h
  | cons b l' => simp [listInfix, h]

/-- No occurrence in `b :: l` implies no occurrence in `l`. -/
theorem listInfix_tail [DecidableEq α] (pat : List α) (b : α) (l : List α)
    (h : listInfix pat (b :: l) = false) : listInfix pat l = false := by
  simp [listInfix] at h
  exact h.2

/-- `replaceFuel` is the identity when the pattern does not occur. -/
theorem replaceFuel_no_occur [DecidableEq α] (pat rep : List α) (fuel : Nat) (l : List α)
    (h : listInfix pat l = false) : replaceFuel pat rep fuel l = l := by
  induction fuel generalizing l with
  | zero => cases l <;> rfl
  | succ fuel ih =>
    cases l with
    | nil => rfl
    | cons c rest =>
      have hpre : listPrefix pat (c :: rest) = false := by
        by_contra hc
        rw [Bool.not_eq_false] at hc
        rw [listPrefix_listInfix _ _ hc] at h
        cases h
      rw [replaceFuel, if_neg (by simp [hpre])]
      rw [ih rest (listInfix_tail _ _ _ h)]

/-- `strReplace` is the identity when the pattern does not occur in the string. -/
theorem strReplace_no_occur (s pat rep : String) (h : strContains s pat = false) :
    strReplace s pat rep = s := by
  unfold strReplace
  cases hp : pat.data with
  | nil => rfl
  | cons p ps =>
    unfold strContains at h
    rw [hp] at h
    show String.mk (replaceFuel (p :: ps) rep.data s.data.length s.data) = s
    rw [replaceFuel_no_occur (p :: ps) rep.data s.data.length s.data h]

/-- Appending to a string that does not start with `/` cannot make it start
with `/` (the suffixes this program appends never start with `/` either). -/
theorem strStartsWith_append_slash (a b : String)
    (ha : strStartsWith a "/" = false) (hb : strStartsWith b "/" = false) :
    strStartsWith (a ++ b) "/" = false := by
  unfold strStartsWith at *
  rw [str_data_append]
  cases hd : a.data with
  | nil => simpa using hb
  | cons c rest =>
    rw [hd] at ha
    simp only [List.cons_append]
    simp [listPrefix] at ha ⊢
    exact ha

/-- `os.path.join(RESULTS_DIR, n)` for a relative `n` is plain concatenation. -/
theorem osPathJoin_results (n : String) (h : strStartsWith n "/" = false) :
    osPathJoin RESULTS_DIR n = "/data/results/" ++ n := by
  unfold osPathJoin
  rw [if_neg (by simp [h]), if_neg (by decide)]
  rfl

/-- Cleanup preconditions for a file-shaped output artifact: it is absent, or
`os.remove` succeeds on it. -/
def cleanupFileOk (fs : FS) (p : String) : Bool :=
  !(fs.existsAt p) || exceptOk (osRemove fs p)

/-- Cleanup preconditions for the directory-shaped output artifact. -/
def cleanupTreeOk (fs : FS) (p : String) : Bool :=
  !(fs.existsAt p) || exceptOk (shutilRmtree fs p)

/-! ## Claims -/

/-- C1: for every `GET /results_file/{analysisDirectory}/{fileName}` whose
decoded segments, joined under the results root and canonicalised, resolve
outside (or equal to) the results root, no file content is served — but the
status is 500, not the claimed 403: the `HTTPException(403)` raised inside the
handler's `try` block is caught by its blanket `except Exception` and
re-raised as `HTTPException(500, "Internal server error: 403: Forbidden")`. -/
theorem c1_traversal_returns_500_not_403 (fs : FS) (analysis_directory file_name : String)
    (h : inParents resultsRoot
        (joinResolve (joinResolve resultsRoot (unquote analysis_directory))
          (unquote file_name)) = false) :
    get_result_file fs analysis_directory file_name
      = .err 500 (.text "Internal server error: 403: Forbidden") := by
  unfold get_result_file get_result_file_body
  simp only [h, Bool.not_false, Bool.or_true]
  rfl

def fsC1 : FS := ⟨fun p => p = ["etc", "foo"], fun _ => false, fun _ => false, fun _ => []⟩

/-- C1 witness: `GET /results_file/../../etc/foo` on a filesystem where
`/etc/foo` exists is answered 500 (and serves nothing). -/
theorem c1_traversal_returns_500_not_403_witness :
    get_result_file fsC1 ".." "../etc/foo"
      = .err 500 (.text "Internal server error: 403: Forbidden") :=
  c1_traversal_returns_500_not_403 fsC1 ".." "../etc/foo" (by decide)

def fsC2 : FS :=
  ⟨fun p => p = ["tmp", "x-hayabusa-report.jsonl"] ∨ p = ["tools", "takajo", "takajo"],
   fun p => p = ["tmp", "x-takajo-analysis"],
   fun _ => false, fun _ => []⟩

def envC2 : Env := ⟨fsC2, fun _ _ => (⟨0, "", ""⟩, fsC2), "/app"⟩

/-- C2: the confinement invariant fails on `POST /analyze/takajo`.  With the
client-supplied report path `/tmp/x-hayabusa-report.jsonl` (an existing file
outside both roots) the request is accepted, the handler `rmtree`s the
pre-existing directory `/tmp/x-takajo-analysis` and spawns the aggregator
reading and writing under `/tmp` — all locations outside the data root
`/data` and the results root `/data/results`. -/
theorem c2_takajo_escapes_roots :
    (analyze_takajo envC2 "/tmp/x-hayabusa-report.jsonl").1
      = [.removeTree "/tmp/x-takajo-analysis",
         .spawn ["/tools/takajo/takajo", "automagic", "-t", "/tmp/x-hayabusa-report.jsonl",
                 "-o", "/tmp/x-takajo-analysis"] "/tools/takajo"]
    ∧ listPrefix (resolveStr DATA_DIR) (resolveStr "/tmp/x-takajo-analysis") = false
    ∧ listPrefix (resolveStr DATA_DIR) (resolveStr "/tmp/x-hayabusa-report.jsonl") = false :=
  ⟨by rfl, by rfl, by rfl⟩

/-- C3: for every file name resolving to an existing regular file strictly
inside the results root, `GET /results_file_json/{fileName}` does *not*
respond with a JSON array: line 184 evaluates `file_name.endsWith('.jsonl')`,
but Python's `str` has `endswith`, not `endsWith`, so an `AttributeError` is
raised, caught by the blanket `except Exception`, and re-raised as a 500 —
for `.jsonl` files as much as for any other existing file. -/
theorem c3_jsonl_route_raises_attribute_error (fs : FS) (file_name : String)
    (hin : inParents resultsRoot (joinResolve resultsRoot (unquote file_name)) = true)
    (hfile : fs.isFile (joinResolve resultsRoot (unquote file_name)) = true) :
    get_result_file_json fs file_name
      = .err 500 (.text "Internal server error: 'str' object has no attribute 'endsWith'") := by
  unfold get_result_file_json get_result_file_json_body
  simp only [hin, hfile, Bool.not_true]
  rfl

def fsC3 : FS :=
  ⟨fun p => p = ["data", "results", "report.jsonl"], fun _ => false, fun _ => false, fun _ => []⟩

/-- C3 witness: the existing file `/data/results/report.jsonl` is requested
and the endpoint answers 500 instead of the decoded JSON array. -/
theorem c3_jsonl_route_raises_attribute_error_witness :
    get_result_file_json fsC3 "report.jsonl"
      = .err 500 (.text "Internal server error: 'str' object has no attribute 'endsWith'") :=
  c3_jsonl_route_raises_attribute_error fsC3 "report.jsonl" (by decide) (by decide)

def fsC4 : FS :=
  ⟨fun p => p = ["tools", "chainsaw", "chainsaw"] ∨ p = ["data", "evtx1.evtx"],
   fun _ => false, fun _ => false, fun _ => []⟩

def envC4 : Env := ⟨fsC4, fun _ _ => (⟨0, "", ""⟩, fsC4), "/app"⟩

/-- C4 counterexample: a `POST /analyze/chainsaw` request that passes
validation (binary present, log file inside the data root) produces an empty
effect trace — no process is ever spawned — and a response whose stdout is the
canned stub text, refuting "the external hunt binary is actually invoked". -/
theorem c4_chainsaw_is_stub_counterexample :
    envC4.fs.existsAt CHAINSAW_PATH = true
    ∧ envC4.fs.isFileAt (osPathJoin DATA_DIR "evtx1.evtx") = true
    ∧ (analyze_chainsaw envC4 "evtx1.evtx").1 = []
    ∧ (analyze_chainsaw envC4 "evtx1.evtx").2
        = .ok ⟨"Chainsaw analysis STUB executed for evtx1.evtx",
               "/data/results/evtx1.evtx-chainsaw-report.json", "Chainsaw",
               some "This is a stub. Chainsaw was not actually executed.", none,
               "/tools/chainsaw/chainsaw hunt -f /data/evtx1.evtx --json -o /data/results/evtx1.evtx-chainsaw-report.json --no-banner",
               none⟩ :=
  ⟨by rfl, by rfl, by rfl, by rfl⟩

/-- C4 amended: on a validated request the handler *constructs* the literal
vector `<bin> hunt -f <logPath> --json -o <outputJsonPath> --no-banner` and
reports it as `command_run`, but the endpoint is a stub: the binary is not
executed (no spawn event, no cleanup), and the response carries the canned
stub stdout instead of an execution result. -/
theorem c4_chainsaw_builds_vector_but_does_not_run (env : Env) (log_file : String)
    (hbin : env.fs.existsAt CHAINSAW_PATH = true)
    (hdots : strContains log_file ".." = false)
    (hfile : env.fs.isFileAt (osPathJoin DATA_DIR log_file) = true) :
    analyze_chainsaw env log_file
      = ([], .ok ⟨"Chainsaw analysis STUB executed for " ++ log_file,
                  chainsawOut log_file, "Chainsaw",
                  some "This is a stub. Chainsaw was not actually executed.", none,
                  String.intercalate " "
                    (chainsawCmd (osPathJoin DATA_DIR log_file) (chainsawOut log_file)),
                  none⟩) := by
  unfold analyze_chainsaw
  simp [hbin, hdots, hfile]

/-- C4 amended witness: concrete validated request, stub response. -/
theorem c4_chainsaw_builds_vector_but_does_not_run_witness :
    analyze_chainsaw envC4 "evtx1.evtx"
      = ([], .ok ⟨"Chainsaw analysis STUB executed for evtx1.evtx",
                  chainsawOut "evtx1.evtx", "Chainsaw",
                  some "This is a stub. Chainsaw was not actually executed.", none,
                  String.intercalate " "
                    (chainsawCmd (osPathJoin DATA_DIR "evtx1.evtx") (chainsawOut "evtx1.evtx")),
                  none⟩) :=
  c4_chainsaw_builds_vector_but_does_not_run envC4 "evtx1.evtx" (by rfl) (by rfl) (by rfl)

def fsC10 : FS := ⟨fun _ => false, fun _ => false, fun _ => false, fun _ => []⟩

def envC10 : Env := ⟨fsC10, fun _ _ => (⟨0, "", ""⟩, fsC10), "/app"⟩

/-- C10 counterexample: with the Hayabusa binary absent, a request whose
`log_file` contains `..` is answered 500 ("binary not found"), not the claimed
404 — the binary-existence check precedes the `..` check. -/
theorem c10_counterexample_binary_missing :
    strContains "../x" ".." = true
    ∧ (analyze_hayabusa envC10 "../x").2
        = .err 500 (.fields ("Hayabusa binary not found at " ++ HAYABUSA_PATH) none none) :=
  ⟨by rfl, by rfl⟩

/-- C10 amended: provided the tool's binary is present, every analyze request
whose `log_file` contains the substring `..` anywhere is rejected with
404 "Log file not found" and an empty effect trace (no filesystem write, no
spawn) — including values such as `my..log.evtx` that name an existing file
inside the data root, and genuine traversal attempts, which surface as 404
rather than 403.  (With the binary absent, a 500 takes precedence, as the
counterexample shows.) -/
theorem c10_dotdot_rejected_404 (env : Env) (log_file keyword : String)
    (hdots : strContains log_file ".." = true) :
    (env.fs.existsAt HAYABUSA_PATH = true →
      analyze_hayabusa env log_file
        = ([], .err 404 (.fields ("Log file not found at "
            ++ osPathJoin DATA_DIR log_file ++ ".") none none))
      ∧ analyze_hayabusa_search env log_file keyword
        = ([], .err 404 (.fields ("Log file not found at "
            ++ osPathJoin DATA_DIR log_file ++ ".") none none)))
    ∧ (env.fs.existsAt CHAINSAW_PATH = true →
      analyze_chainsaw env log_file
        = ([], .err 404 (.fields ("Log file not found at "
            ++ osPathJoin DATA_DIR log_file ++ ".") none none))) := by
  constructor
  · intro hbin
    constructor
    · unfold analyze_hayabusa
      simp [hbin, hdots]
    · unfold analyze_hayabusa_search
      simp [hbin, hdots]
  · intro hbin
    unfold analyze_chainsaw
    simp [hbin, hdots]

def fsC10b : FS :=
  ⟨fun p => p = ["tools", "hayabusa", "hayabusa"] ∨ p = ["tools", "chainsaw", "chainsaw"]
        ∨ p = ["data", "my..log.evtx"],
   fun _ => false, fun _ => false, fun _ => []⟩

def envC10b : Env := ⟨fsC10b, fun _ _ => (⟨0, "", ""⟩, fsC10b), "/app"⟩

/-- C10 amended witness: `my..log.evtx` names an existing file inside the data
root, yet the request is rejected 404 with no effects. -/
theorem c10_dotdot_rejected_404_witness :
    analyze_hayabusa envC10b "my..log.evtx"
      = ([], .err 404 (.fields ("Log file not found at "
          ++ osPathJoin DATA_DIR "my..log.evtx" ++ ".") none none))
    ∧ envC10b.fs.isFileAt (osPathJoin DATA_DIR "my..log.evtx") = true :=
  ⟨((c10_dotdot_rejected_404 envC10b "my..log.evtx" "k" (by rfl)).1 (by rfl)).1, by rfl⟩

/-- C9: when `hayabusa_report_file` names an existing (regular) file whose
absolutised path does not contain `-hayabusa-report.jsonl` (and passes the
`..` test), the unconditional `str.replace` leaves the path unchanged, so the
computed output directory *is* the input file; the cleaning step's
`shutil.rmtree` then fails on the regular file, the caught failure is
re-raised as a 500, and the request terminates with an empty effect trace —
no spawn ever happens and the input file is not deleted. -/
theorem c9_takajo_nonconforming_name_fails_before_run (env : Env) (rf : String)
    (hbin : env.fs.existsAt TAKAJO_PATH = true)
    (hdots : strContains (osPathAbspath env.cwd rf) ".." = false)
    (hfile : env.fs.isFile (resolveStr (osPathAbspath env.cwd rf)) = true)
    (hndir : env.fs.isDir (resolveStr (osPathAbspath env.cwd rf)) = false)
    (hsub : strContains (osPathAbspath env.cwd rf) "-hayabusa-report.jsonl" = false) :
    analyze_takajo env rf
      = ([], .err 500 (.text ("Failed to remove old analysis directory: "
          ++ ("NotADirectoryError: " ++ osPathAbspath env.cwd rf)))) := by
  have hout : strReplace (osPathAbspath env.cwd rf) "-hayabusa-report.jsonl" "-takajo-analysis"
      = osPathAbspath env.cwd rf := strReplace_no_occur _ _ _ hsub
  have hex : env.fs.existsAt (osPathAbspath env.cwd rf) = true := by
    simp [FS.existsAt, hfile]
  simp only [analyze_takajo, hout]
  simp [hbin, hdots, hfile, hex, FS.isFileAt, shutilRmtree, hndir, PyExc.toStr]

def fsC9 : FS :=
  ⟨fun p => p = ["tools", "takajo", "takajo"] ∨ p = ["data", "results", "notes.txt"],
   fun _ => false, fun _ => false, fun _ => []⟩

def envC9 : Env := ⟨fsC9, fun _ _ => (⟨0, "", ""⟩, fsC9), "/app"⟩

/-- C9 witness: `/data/results/notes.txt` exists but lacks the report suffix;
the request fails 500 with no effects. -/
theorem c9_takajo_nonconforming_name_fails_before_run_witness :
    analyze_takajo envC9 "/data/results/notes.txt"
      = ([], .err 500 (.text ("Failed to remove old analysis directory: "
          ++ ("NotADirectoryError: " ++ osPathAbspath envC9.cwd "/data/results/notes.txt")))) :=
  c9_takajo_nonconforming_name_fails_before_run envC9 "/data/results/notes.txt"
    (by rfl) (by rfl) (by rfl) (by rfl) (by rfl)

/-- An error response is not a success response. -/
theorem err_response_not_ok (x : Resp) (s : Nat) (d : Detail) (h : x = .err s d) :
    ∀ r, x ≠ .ok r := by
  intro r hr
  rw [h] at hr
  exact Resp.noConfusion hr

/-- C6: for each analyze endpoint that runs its binary (the chainsaw stub
spawns nothing, so the claim is vacuous there), a nonzero exit of the spawned
process yields a 500 whose detail carries the captured stderr and stdout
verbatim, and the response is not a success response (so no output artifact is
reported as collected — the error detail has no output-location field). -/
theorem c6_nonzero_exit_surfaces_output (env : Env) (lf kw rf : String) :
    (env.fs.existsAt HAYABUSA_PATH = true →
     strContains lf ".." = false →
     env.fs.isFileAt (osPathJoin DATA_DIR lf) = true →
     cleanupFileOk env.fs (hayabusaOut lf) = true →
     ∀ rc so se fs2,
       env.exec (hayabusaCmd (osPathJoin DATA_DIR lf) (hayabusaOut lf)) HAYABUSA_DIR
         = (⟨rc, so, se⟩, fs2) →
       rc ≠ 0 →
       (analyze_hayabusa env lf).2
         = .err 500 (.fields "Hayabusa analysis failed." (some so) (some se))
       ∧ ∀ r, (analyze_hayabusa env lf).2 ≠ .ok r)
    ∧ (env.fs.existsAt HAYABUSA_PATH = true →
     strContains lf ".." = false →
     env.fs.isFileAt (osPathJoin DATA_DIR lf) = true →
     cleanupFileOk env.fs (searchOut lf kw) = true →
     ∀ rc so se fs2,
       env.exec (searchCmd (osPathJoin DATA_DIR lf) kw (searchOut lf kw)) HAYABUSA_DIR
         = (⟨rc, so, se⟩, fs2) →
       rc ≠ 0 →
       (analyze_hayabusa_search env lf kw).2
         = .err 500 (.fields "Hayabusa search failed." (some so) (some se))
       ∧ ∀ r, (analyze_hayabusa_search env lf kw).2 ≠ .ok r)
    ∧ (env.fs.existsAt TAKAJO_PATH = true →
     strContains (osPathAbspath env.cwd rf) ".." = false →
     env.fs.isFileAt (osPathAbspath env.cwd rf) = true →
     cleanupTreeOk env.fs
       (strReplace (osPathAbspath env.cwd rf) "-hayabusa-report.jsonl" "-takajo-analysis") = true →
     ∀ rc so se fs2,
       env.exec (takajoCmd (osPathAbspath env.cwd rf)
           (strReplace (osPathAbspath env.cwd rf) "-hayabusa-report.jsonl" "-takajo-analysis"))
         TAKAJO_DIR = (⟨rc, so, se⟩, fs2) →
       rc ≠ 0 →
       (analyze_takajo env rf).2
         = .err 500 (.fields "Takajo analysis failed." (some so) (some se))
       ∧ ∀ r, (analyze_takajo env rf).2 ≠ .ok r) := by
  refine ⟨?_, ?_, ?_⟩
  · intro hbin hdots hfile hclean rc so se fs2 hexec hrc
    have key : (analyze_hayabusa env lf).2
        = .err 500 (.fields "Hayabusa analysis failed." (some so) (some se)) := by
      unfold analyze_hayabusa
      by_cases hex : env.fs.existsAt (hayabusaOut lf) = true
      · have hrem : osRemove env.fs (hayabusaOut lf) = .ok () := by
          unfold cleanupFileOk at hclean
          rw [hex] at hclean
          cases hr : osRemove env.fs (hayabusaOut lf) with
          | ok u => cases u; rfl
          | error e => rw [hr] at hclean; simp [exceptOk] at hclean
        simp [hbin, hdots, hfile, hex, hrem, hexec, hrc]
      · rw [Bool.not_eq_true] at hex
        simp [hbin, hdots, hfile, hex, hexec, hrc]
    exact ⟨key, err_response_not_ok _ _ _ key⟩
  · intro hbin hdots hfile hclean rc so se fs2 hexec hrc
    have key : (analyze_hayabusa_search env lf kw).2
        = .err 500 (.fields "Hayabusa search failed." (some so) (some se)) := by
      unfold analyze_hayabusa_search
      by_cases hex : env.fs.existsAt (searchOut lf kw) = true
      · have hrem : osRemove env.fs (searchOut lf kw) = .ok () := by
          unfold cleanupFileOk at hclean
          rw [hex] at hclean
          cases hr : osRemove env.fs (searchOut lf kw) with
          | ok u => cases u; rfl
          | error e => rw [hr] at hclean; simp [exceptOk] at hclean
        simp [hbin, hdots, hfile, hex, hrem, hexec, hrc]
      · rw [Bool.not_eq_true] at hex
        simp [hbin, hdots, hfile, hex, hexec, hrc]
    exact ⟨key, err_response_not_ok _ _ _ key⟩
  · intro hbin hdots hfile hclean rc so se fs2 hexec hrc
    have key : (analyze_takajo env rf).2
        = .err 500 (.fields "Takajo analysis failed." (some so) (some se)) := by
      unfold analyze_takajo
      by_cases hex : env.fs.existsAt
          (strReplace (osPathAbspath env.cwd rf) "-hayabusa-report.jsonl" "-takajo-analysis") = true
      · have hrem : shutilRmtree env.fs
            (strReplace (osPathAbspath env.cwd rf) "-hayabusa-report.jsonl" "-takajo-analysis")
            = .ok () := by
          unfold cleanupTreeOk at hclean
          rw [hex] at hclean
          cases hr : shutilRmtree env.fs
              (strReplace (osPathAbspath env.cwd rf) "-hayabusa-report.jsonl" "-takajo-analysis") with
          | ok u => cases u; rfl
          | error e => rw [hr] at hclean; simp [exceptOk] at hclean
        simp [hbin, hdots, hfile, hex, hrem, hexec, hrc]
      · rw [Bool.not_eq_true] at hex
        simp [hbin, hdots, hfile, hex, hexec, hrc]
    exact ⟨key, err_response_not_ok _ _ _ key⟩

def fsC6 : FS :=
  ⟨fun p => p = ["tools", "hayabusa", "hayabusa"] ∨ p = ["data", "evtx1.evtx"],
   fun _ => false, fun _ => false, fun _ => []⟩

def envC6 : Env := ⟨fsC6, fun _ _ => (⟨1, "table output", "rule load error"⟩, fsC6), "/app"⟩

/-- C6 witness: a run exiting 1 is answered 500 carrying the captured streams. -/
theorem c6_nonzero_exit_surfaces_output_witness :
    (analyze_hayabusa envC6 "evtx1.evtx").2
      = .err 500 (.fields "Hayabusa analysis failed."
          (some "table output") (some "rule load error")) :=
  ((c6_nonzero_exit_surfaces_output envC6 "evtx1.evtx" "k" "r").1
    (by rfl) (by rfl) (by rfl) (by rfl) 1 "table output" "rule load error" fsC6
    rfl (by decide)).1

/-- C5: for each orchestrated tool run (the three endpoints that spawn a
binary; the chainsaw stub never spawns), whenever an artifact pre-exists at
the computed output location, the effect trace is either empty (the binary was
never invoked) or exactly "remove the output location, then spawn" — so a
spawn is always preceded by the deletion; and if the removal would fail while
the request is otherwise valid, the response is a 500 error with an empty
trace (no spawn, nothing silently ignored). -/
theorem c5_cleanup_before_spawn (env : Env) (lf kw rf : String) :
    ((env.fs.existsAt (hayabusaOut lf) = true →
        (analyze_hayabusa env lf).1 = []
        ∨ (analyze_hayabusa env lf).1
            = [.removeFile (hayabusaOut lf),
               .spawn (hayabusaCmd (osPathJoin DATA_DIR lf) (hayabusaOut lf)) HAYABUSA_DIR])
     ∧ (env.fs.existsAt HAYABUSA_PATH = true →
        strContains lf ".." = false →
        env.fs.isFileAt (osPathJoin DATA_DIR lf) = true →
        env.fs.existsAt (hayabusaOut lf) = true →
        exceptOk (osRemove env.fs (hayabusaOut lf)) = false →
        (∃ d, (analyze_hayabusa env lf).2 = .err 500 d)
        ∧ (analyze_hayabusa env lf).1 = []))
    ∧ ((env.fs.existsAt (searchOut lf kw) = true →
        (analyze_hayabusa_search env lf kw).1 = []
        ∨ (analyze_hayabusa_search env lf kw).1
            = [.removeFile (searchOut lf kw),
               .spawn (searchCmd (osPathJoin DATA_DIR lf) kw (searchOut lf kw)) HAYABUSA_DIR])
     ∧ (env.fs.existsAt HAYABUSA_PATH = true →
        strContains lf ".." = false →
        env.fs.isFileAt (osPathJoin DATA_DIR lf) = true →
        env.fs.existsAt (searchOut lf kw) = true →
        exceptOk (osRemove env.fs (searchOut lf kw)) = false →
        (∃ d, (analyze_hayabusa_search env lf kw).2 = .err 500 d)
        ∧ (analyze_hayabusa_search env lf kw).1 = []))
    ∧ ((env.fs.existsAt
          (strReplace (osPathAbspath env.cwd rf) "-hayabusa-report.jsonl" "-takajo-analysis") = true →
        (analyze_takajo env rf).1 = []
        ∨ (analyze_takajo env rf).1
            = [.removeTree (strReplace (osPathAbspath env.cwd rf)
                  "-hayabusa-report.jsonl" "-takajo-analysis"),
               .spawn (takajoCmd (osPathAbspath env.cwd rf)
                  (strReplace (osPathAbspath env.cwd rf)
                    "-hayabusa-report.jsonl" "-takajo-analysis")) TAKAJO_DIR])
     ∧ (env.fs.existsAt TAKAJO_PATH = true →
        strContains (osPathAbspath env.cwd rf) ".." = false →
        env.fs.isFileAt (osPathAbspath env.cwd rf) = true →
        env.fs.existsAt
          (strReplace (osPathAbspath env.cwd rf) "-hayabusa-report.jsonl" "-takajo-analysis") = true →
        exceptOk (shutilRmtree env.fs
          (strReplace (osPathAbspath env.cwd rf) "-hayabusa-report.jsonl" "-takajo-analysis")) = false →
        (∃ d, (analyze_takajo env rf).2 = .err 500 d)
        ∧ (analyze_takajo env rf).1 = [])) := by
  refine ⟨⟨?_, ?_⟩, ⟨?_, ?_⟩, ⟨?_, ?_⟩⟩
  · intro hex
    unfold analyze_hayabusa
    by_cases hbin : env.fs.existsAt HAYABUSA_PATH = true
    · by_cases hval : (strContains lf ".." || !env.fs.isFileAt (osPathJoin DATA_DIR lf)) = true
      · left; simp [hbin, hval]
      · rw [Bool.not_eq_true, Bool.or_eq_false_iff] at hval
        cases hrem : osRemove env.fs (hayabusaOut lf) with
        | ok u =>
          cases u
          right
          by_cases hrc : (env.exec (hayabusaCmd (osPathJoin DATA_DIR lf) (hayabusaOut lf))
              HAYABUSA_DIR).1.returncode = 0
          · simp [hbin, hval.1, hval.2, hex, hrem, hrc]
          · simp [hbin, hval.1, hval.2, hex, hrem, hrc]
        | error e => left; simp [hbin, hval.1, hval.2, hex, hrem]
    · rw [Bool.not_eq_true] at hbin
      left; simp [hbin]
  · intro hbin hdots hfile hex hfail
    unfold analyze_hayabusa
    cases hrem : osRemove env.fs (hayabusaOut lf) with
    | ok u => rw [hrem] at hfail; simp [exceptOk] at hfail
    | error e =>
      constructor
      · exact ⟨.text "Internal Server Error", by simp [hbin, hdots, hfile, hex, hrem]⟩
      · simp [hbin, hdots, hfile, hex, hrem]
  · intro hex
    unfold analyze_hayabusa_search
    by_cases hbin : env.fs.existsAt HAYABUSA_PATH = true
    · by_cases hval : (strContains lf ".." || !env.fs.isFileAt (osPathJoin DATA_DIR lf)) = true
      · left; simp [hbin, hval]
      · rw [Bool.not_eq_true, Bool.or_eq_false_iff] at hval
        cases hrem : osRemove env.fs (searchOut lf kw) with
        | ok u =>
          cases u
          right
          by_cases hrc : (env.exec (searchCmd (osPathJoin DATA_DIR lf) kw (searchOut lf kw))
              HAYABUSA_DIR).1.returncode = 0
          · simp [hbin, hval.1, hval.2, hex, hrem, hrc]
          · simp [hbin, hval.1, hval.2, hex, hrem, hrc]
        | error e => left; simp [hbin, hval.1, hval.2, hex, hrem]
    · rw [Bool.not_eq_true] at hbin
      left; simp [hbin]
  · intro hbin hdots hfile hex hfail
    unfold analyze_hayabusa_search
    cases hrem : osRemove env.fs (searchOut lf kw) with
    | ok u => rw [hrem] at hfail; simp [exceptOk] at hfail
    | error e =>
      constructor
      · exact ⟨.text "Internal Server Error", by simp [hbin, hdots, hfile, hex, hrem]⟩
      · simp [hbin, hdots, hfile, hex, hrem]
  · intro hex
    unfold analyze_takajo
    by_cases hbin : env.fs.existsAt TAKAJO_PATH = true
    · by_cases hval : (strContains (osPathAbspath env.cwd rf) ".."
          || !env.fs.isFileAt (osPathAbspath env.cwd rf)) = true
      · left; simp [hbin, hval]
      · rw [Bool.not_eq_true, Bool.or_eq_false_iff] at hval
        cases hrem : shutilRmtree env.fs
            (strReplace (osPathAbspath env.cwd rf) "-hayabusa-report.jsonl" "-takajo-analysis") with
        | ok u =>
          cases u
          right
          by_cases hrc : (env.exec (takajoCmd (osPathAbspath env.cwd rf)
              (strReplace (osPathAbspath env.cwd rf) "-hayabusa-report.jsonl" "-takajo-analysis"))
              TAKAJO_DIR).1.returncode = 0
          · simp [hbin, hval.1, hval.2, hex, hrem, hrc]
          · simp [hbin, hval.1, hval.2, hex, hrem, hrc]
        | error e => left; simp [hbin, hval.1, hval.2, hex, hrem]
    · rw [Bool.not_eq_true] at hbin
      left; simp [hbin]
  · intro hbin hdots hfile hex hfail
    unfold analyze_takajo
    cases hrem : shutilRmtree env.fs
        (strReplace (osPathAbspath env.cwd rf) "-hayabusa-report.jsonl" "-takajo-analysis") with
    | ok u => rw [hrem] at hfail; simp [exceptOk] at hfail
    | error e =>
      constructor
      · exact ⟨.text ("Failed to remove old analysis directory: " ++ e.toStr),
          by simp [hbin, hdots, hfile, hex, hrem]⟩
      · simp [hbin, hdots, hfile, hex, hrem]

def fsC5 : FS :=
  ⟨fun p => p = ["tools", "hayabusa", "hayabusa"] ∨ p = ["data", "evtx1.evtx"]
        ∨ p = ["data", "results", "evtx1.evtx-hayabusa-report.jsonl"],
   fun _ => false, fun _ => false, fun _ => []⟩

def envC5 : Env := ⟨fsC5, fun _ _ => (⟨0, "", ""⟩, fsC5), "/app"⟩

/-- C5 witness: with a stale report present, the trace is exactly
"remove report, then spawn". -/
theorem c5_cleanup_before_spawn_witness :
    (analyze_hayabusa envC5 "evtx1.evtx").1 = []
    ∨ (analyze_hayabusa envC5 "evtx1.evtx").1
        = [.removeFile (hayabusaOut "evtx1.evtx"),
           .spawn (hayabusaCmd (osPathJoin DATA_DIR "evtx1.evtx") (hayabusaOut "evtx1.evtx"))
             HAYABUSA_DIR] :=
  ((c5_cleanup_before_spawn envC5 "evtx1.evtx" "k" "r").1).1 (by rfl)

/-- When every non-blank line decodes, the loop returns the accumulator
followed by the decoded values, in order. -/
theorem readJsonLinesAux_all_ok (dec : String → Except String α)
    (lines : List String) (acc : List α) (vs : List α)
    (h : List.Forall₂ (fun l v => dec l = .ok v)
      (lines.filter fun l => !(lineBlank l)) vs) :
    readJsonLinesAux dec acc lines = .ok (acc ++ vs) := by
  induction lines generalizing acc vs with
  | nil =>
    cases h
    simp [readJsonLinesAux]
  | cons line rest ih =>
    by_cases hb : lineBlank line = true
    · rw [List.filter_cons] at h
      simp [hb] at h
      simp [readJsonLinesAux, hb]
      exact ih acc vs h
    · rw [Bool.not_eq_true] at hb
      rw [List.filter_cons] at h
      simp [hb] at h
      cases h with
      | cons hd htl =>
        rename_i v vs'
        simp [readJsonLinesAux, hb, hd]
        rw [ih (acc ++ [v]) vs' htl]
        simp

/-- When some non-blank line fails to decode, the loop aborts with an error. -/
theorem readJsonLinesAux_error (dec : String → Except String α)
    (lines : List String) (acc : List α)
    (h : ∃ l ∈ lines, lineBlank l = false ∧ ∀ v, dec l ≠ .ok v) :
    ∃ e, readJsonLinesAux dec acc lines = .error e := by
  induction lines generalizing acc with
  | nil =>
    rcases h with ⟨l, hl, _⟩
    cases hl
  | cons line rest ih =>
    rcases h with ⟨l, hl, hnb, hbad⟩
    rcases List.mem_cons.mp hl with hEq | hmem
    · subst hEq
      cases hd : dec l with
      | error e => exact ⟨e, by simp [readJsonLinesAux, hnb, hd]⟩
      | ok v => exact absurd hd (hbad v)
    · by_cases hb : lineBlank line = true
      · have hrec := ih acc ⟨l, hmem, hnb, hbad⟩
        simpa [readJsonLinesAux, hb] using hrec
      · rw [Bool.not_eq_true] at hb
        cases hd : dec line with
        | error e => exact ⟨e, by simp [readJsonLinesAux, hb, hd]⟩
        | ok v =>
          have hrec := ih (acc ++ [v]) ⟨l, hmem, hnb, hbad⟩
          simpa [readJsonLinesAux, hb, hd] using hrec

/-- C7: the JSON-Lines decoding step (lines 189–193) applied to the lines of a
file: if every non-blank line decodes, the result is exactly the decoded
values of the non-blank lines in their original order (blank lines skipped,
one value per remaining line); if some non-blank line fails to decode, the
result is an error — never a partial list of the values before the bad line.
`dec` stands for `json.loads` on one line. -/
theorem c7_jsonl_round_trip (dec : String → Except String α) (lines : List String) :
    (∀ vs : List α,
       List.Forall₂ (fun l v => dec l = .ok v)
         (lines.filter fun l => !(lineBlank l)) vs →
       readJsonLines dec lines = .ok vs
       ∧ vs.length = (lines.filter fun l => !(lineBlank l)).length)
    ∧ ((∃ l ∈ lines, lineBlank l = false ∧ ∀ v, dec l ≠ .ok v) →
       ∃ e, readJsonLines dec lines = .error e) := by
  constructor
  · intro vs h
    constructor
    · have := readJsonLinesAux_all_ok dec lines [] vs h
      simpa [readJsonLines] using this
    · exact h.length_eq.symm
  · intro h
    exact readJsonLinesAux_error dec lines [] h

def decC7 : String → Except String Json := fun s =>
  if s = "7" then .ok (.num 7)
  else if s = "42" then .ok (.num 42)
  else .error "Expecting value: line 1 column 1 (char 0)"

/-- C7 witness: two valid JSON lines with interspersed blank lines decode to
exactly the two values, in order. -/
theorem c7_jsonl_round_trip_witness :
    readJsonLines decC7 ["7", "", "   ", "42"] = .ok [.num 7, .num 42] :=
  ((c7_jsonl_round_trip decC7 ["7", "", "   ", "42"]).1 [.num 7, .num 42]
    (List.Forall₂.cons (by rfl) (List.Forall₂.cons (by rfl) List.Forall₂.nil))).1

def fsC8 : FS :=
  ⟨fun p => p = ["a"] ∨ p = ["tools", "hayabusa", "hayabusa"],
   fun _ => false, fun _ => false, fun _ => []⟩

def envC8 : Env := ⟨fsC8, fun _ _ => (⟨0, "", ""⟩, fsC8), "/app"⟩

/-- C8 counterexample: the request `log_file = "/a"` (with `/a` an existing
file) is accepted — `os.path.join(DATA_DIR, "/a")` discards the data root —
and the reported output location is `/a-hayabusa-report.jsonl`, which is not
the string `/data/results/<L>-hayabusa-report.jsonl` of the claim. -/
theorem c8_absolute_log_file_breaks_formula :
    (analyze_hayabusa envC8 "/a").2
      = .ok ⟨"Hayabusa analysis complete for /a", "/a-hayabusa-report.jsonl", "Hayabusa",
             some "", some "",
             "/tools/hayabusa/hayabusa json-timeline -f /a -o /a-hayabusa-report.jsonl -L --no-wizard",
             none⟩
    ∧ ("/a-hayabusa-report.jsonl" : String)
        ≠ "/data/results/" ++ "/a" ++ "-hayabusa-report.jsonl" :=
  ⟨by rfl, by decide⟩

/-- A successful hayabusa response carries the computed output location and
the space-joined literal command vector. -/
theorem analyze_hayabusa_ok_shape (env : Env) (lf : String) (r : AnalysisResponse)
    (h : (analyze_hayabusa env lf).2 = .ok r) :
    r.output_location = hayabusaOut lf
    ∧ r.command_run = String.intercalate " "
        (hayabusaCmd (osPathJoin DATA_DIR lf) (hayabusaOut lf)) := by
  simp only [analyze_hayabusa] at h
  split at h
  · simp at h
  · split at h
    · simp at h
    · split at h
      · simp at h
      · split at h
        · simp at h
        · simp only [Resp.ok.injEq] at h
          subst h
          exact ⟨rfl, rfl⟩

/-- A successful takajo response carries the suffix-replaced absolutised
input path as its output location. -/
theorem analyze_takajo_ok_shape (env : Env) (rf : String) (r : AnalysisResponse)
    (h : (analyze_takajo env rf).2 = .ok r) :
    r.output_location
      = strReplace (osPathAbspath env.cwd rf) "-hayabusa-report.jsonl" "-takajo-analysis" := by
  simp only [analyze_takajo] at h
  split at h
  · simp at h
  · split at h
    · simp at h
    · split at h
      · simp at h
      · split at h
        · simp at h
        · simp only [Resp.ok.injEq] at h
          subst h
          rfl

/-- C8 amended: the output location is a pure deterministic function of the
input identifier and the tool.  For the timeline tool with a *relative* log
file `L` it is exactly `/data/results/L-hayabusa-report.jsonl` and
`command_run` is the space-joined literal vector (an absolute `L` instead
replaces the root, by `os.path.join` semantics, as the counterexample shows).
For the aggregator with input `P` it is `abspath(P)` with every occurrence of
`-hayabusa-report.jsonl` replaced by `-takajo-analysis` (equal to the claim's
formula when `P` is an absolute normalised path).  The same input and tool
always yield the same location. -/
theorem c8_deterministic_output_location (env env' : Env) (lf rf : String) :
    (strStartsWith lf "/" = false →
      ∀ r, (analyze_hayabusa env lf).2 = .ok r →
        r.output_location = "/data/results/" ++ lf ++ "-hayabusa-report.jsonl"
        ∧ r.command_run = String.intercalate " "
            (hayabusaCmd (osPathJoin DATA_DIR lf) (hayabusaOut lf)))
    ∧ (∀ r, (analyze_takajo env rf).2 = .ok r →
        r.output_location
          = strReplace (osPathAbspath env.cwd rf) "-hayabusa-report.jsonl" "-takajo-analysis")
    ∧ (∀ r r', (analyze_hayabusa env lf).2 = .ok r → (analyze_hayabusa env' lf).2 = .ok r' →
        r.output_location = r'.output_location)
    ∧ (∀ r r', env.cwd = env'.cwd →
        (analyze_takajo env rf).2 = .ok r → (analyze_takajo env' rf).2 = .ok r' →
        r.output_location = r'.output_location) := by
  refine ⟨?_, ?_, ?_, ?_⟩
  · intro hrel r h
    obtain ⟨hloc, hcmd⟩ := analyze_hayabusa_ok_shape env lf r h
    refine ⟨?_, hcmd⟩
    rw [hloc]
    unfold hayabusaOut
    rw [osPathJoin_results _ (strStartsWith_append_slash lf "-hayabusa-report.jsonl" hrel (by rfl))]
    rw [str_append_assoc]
  · intro r h
    exact analyze_takajo_ok_shape env rf r h
  · intro r r' h h'
    rw [(analyze_hayabusa_ok_shape env lf r h).1, (analyze_hayabusa_ok_shape env' lf r' h').1]
  · intro r r' hcwd h h'
    rw [analyze_takajo_ok_shape env rf r h, analyze_takajo_ok_shape env' rf r' h', hcwd]

def fsC8b : FS :=
  ⟨fun p => p = ["tools", "hayabusa", "hayabusa"] ∨ p = ["data", "evtx1.evtx"],
   fun _ => false, fun _ => false, fun _ => []⟩

def envC8b : Env := ⟨fsC8b, fun _ _ => (⟨0, "", ""⟩, fsC8b), "/app"⟩

/-- C8 amended witness: `POST /analyze/hayabusa {"log_file": "evtx1.evtx"}`
reports output location `/data/results/evtx1.evtx-hayabusa-report.jsonl`. -/
theorem c8_deterministic_output_location_witness :
    ("/data/results/evtx1.evtx-hayabusa-report.jsonl" : String)
      = "/data/results/" ++ "evtx1.evtx" ++ "-hayabusa-report.jsonl" :=
  ((c8_deterministic_output_location envC8b envC8b "evtx1.evtx" "r").1 (by rfl)
    ⟨"Hayabusa analysis complete for evtx1.evtx",
     "/data/results/evtx1.evtx-hayabusa-report.jsonl", "Hayabusa", some "", some "",
     "/tools/hayabusa/hayabusa json-timeline -f /data/evtx1.evtx -o /data/results/evtx1.evtx-hayabusa-report.jsonl -L --no-wizard",
     none⟩ (by rfl)).1
